import Mathlib

/-!
Shallow embedding of satpy/modifiers/angles.py — the zarr on-disk caching
subsystem (ZarrCacheHelper, argument hashing and sanitization, the two
cached pipeline functions) — together with theorems settling the frozen
claims about it.

Modelling conventions:
* Python floats are modelled as exact rationals (ℚ); `round(x, 1)` is
  modelled as round-half-to-even at one decimal on ℚ.
* The filesystem is an explicit state: a list of zarr artifact directories,
  each a (directory, file name, stored array data) triple.  `glob`
  enumeration order is the entry (creation) order of that list.
* Python exceptions are modelled with `Except`; an error value carries the
  filesystem state at raise time so that "nothing was written" is a
  provable statement.
* External collaborators (hashlib, json, pyresample geometries, dask) are
  modelled at their interface per the specification; each such definition
  notes what it stands for.
-/

/-- Python exceptions raised by the code under study. -/
inductive PyErr where
  | typeError (msg : String)
  | valueError (msg : String)
  | runtimeError (msg : String)
  deriving DecidableEq, Repr

/-- The payload of an array: its sequence of element values.  `none`
models a not-a-number element. -/
abbrev ArrData := List (Option ℚ)

/-- Provenance of a dask array: either produced by in-memory computation
or lazily backed by an on-disk zarr store at the given path. -/
inductive DaskSource where
  | computed
  | zarr (dir : String) (fname : String)
  deriving DecidableEq, Repr

/-- Model of a `dask.array.Array`: its provenance plus the element data the
graph evaluates to. -/
structure DaskArr where
  source : DaskSource
  data : ArrData
  deriving DecidableEq, Repr

/-- Model of `datetime.datetime` (microseconds omitted: every datetime in
the source is used whole-second). -/
structure DateTimeM where
  year : Nat
  month : Nat
  day : Nat
  hour : Nat
  minute : Nat
  second : Nat
  deriving DecidableEq, Repr

def pad2 (n : Nat) : String :=
  if n < 10 then "0" ++ toString n else toString n

def pad4 (n : Nat) : String :=
  if n < 10 then "000" ++ toString n
  else if n < 100 then "00" ++ toString n
  else if n < 1000 then "0" ++ toString n
  else toString n

/-- `datetime.isoformat(sep)` for whole-second datetimes:
`YYYY-MM-DD<sep>HH:MM:SS`. -/
def DateTimeM.isoformat (t : DateTimeM) (sep : String) : String :=
  pad4 t.year ++ "-" ++ pad2 t.month ++ "-" ++ pad2 t.day ++ sep ++
    pad2 t.hour ++ ":" ++ pad2 t.minute ++ ":" ++ pad2 t.second

/-- `STATIC_EARTH_INERTIAL_DATETIME = datetime(2000, 1, 1, 12, 0, 0)`. -/
def STATIC_EARTH_INERTIAL_DATETIME : DateTimeM :=
  ⟨2000, 1, 1, 12, 0, 0⟩

/-- Chunk specifications accepted by `get_lonlats` (source type is
`Union[int, str]`; `other` absorbs anything else a caller could pass). -/
inductive ChunksV where
  | int (n : ℤ)
  | str (s : String)
  | other
  deriving DecidableEq, Repr

/-- Model of `pyresample.geometry.AreaDefinition` at its interface: a
content hash (Python `hash(area)`) and the `get_lonlats(chunks)` method
producing the longitude and latitude grids. -/
structure AreaDef where
  hashVal : ℤ
  get_lonlats : ChunksV → ArrData × ArrData

/-- Runtime type tags used for the `isinstance` checks in the source. -/
inductive ArgTag where
  | dataArray
  | daskArray
  | swathDef
  | areaDef
  | datetime
  | pyFloat
  | pyInt
  | pyStr
  | nonSerializable
  deriving DecidableEq, Repr

/-- A heterogeneous Python argument value as passed to the cached
functions.  `nonSerializable` models any value that is none of the types
the source special-cases and that `json.dumps` cannot serialize. -/
inductive Arg where
  | dataArray (id : Nat)
  | daskArray (a : DaskArr)
  | swathDef (id : Nat)
  | areaDef (g : AreaDef)
  | datetime (t : DateTimeM)
  | pyFloat (q : ℚ)
  | pyInt (n : ℤ)
  | pyStr (s : String)
  | nonSerializable (id : Nat)

def Arg.tag : Arg → ArgTag
  | .dataArray _ => .dataArray
  | .daskArray _ => .daskArray
  | .swathDef _ => .swathDef
  | .areaDef _ => .areaDef
  | .datetime _ => .datetime
  | .pyFloat _ => .pyFloat
  | .pyInt _ => .pyInt
  | .pyStr _ => .pyStr
  | .nonSerializable _ => .nonSerializable

/-- Project an argument to the chunk-specification value handed to
`get_lonlats`. -/
def Arg.toChunks : Arg → ChunksV
  | .pyInt n => ChunksV.int n
  | .pyStr s => ChunksV.str s
  | _ => ChunksV.other

/-- An element of the `hashable_args` list built by `_hash_args` after the
per-argument transformation.  `hbad` marks a value `json.dumps` rejects. -/
inductive HArg where
  | hint (n : ℤ)
  | hflt (q : ℚ)
  | hstr (s : String)
  | hbad (id : Nat)
  deriving DecidableEq, Repr

/-- The per-argument step of `_hash_args`: `xr.DataArray`, `da.Array` and
`SwathDefinition` arguments are skipped (`continue`); an `AreaDefinition`
is replaced by `hash(arg)`; a `datetime` by `arg.isoformat(" ")`; anything
else is kept as is. -/
def Arg.toHashable : Arg → Option HArg
  | .dataArray _ => none
  | .daskArray _ => none
  | .swathDef _ => none
  | .areaDef g => some (HArg.hint g.hashVal)
  | .datetime t => some (HArg.hstr (t.isoformat " "))
  | .pyFloat q => some (HArg.hflt q)
  | .pyInt n => some (HArg.hint n)
  | .pyStr s => some (HArg.hstr s)
  | .nonSerializable id => some (HArg.hbad id)

/-- Modelled from the spec: deterministic textual JSON encoding of one
hashable argument (`json.dumps` serializes ints, floats and strings;
string escaping is immaterial for the claims and elided; a float is
rendered by its exact numerator/denominator, deterministically). `none`
means `json.dumps` raises `TypeError` for this value. -/
def hargRender : HArg → Option String
  | .hint n => some (toString n)
  | .hflt q => some (toString q.num ++ "/" ++ toString q.den)
  | .hstr s => some ("\"" ++ s ++ "\"")
  | .hbad _ => none

def renderAll : List HArg → Option (List String)
  | [] => some []
  | h :: t =>
    match hargRender h, renderAll t with
    | some s, some rest => some (s :: rest)
    | _, _ => none

/-- Modelled from the spec: `json.dumps(tuple(hashable_args))` — a stable
textual encoding with no field reordering, raising `TypeError` when some
element is not JSON-serializable. -/
def jsonDumpsH (l : List HArg) : Except PyErr String :=
  match renderAll l with
  | none => Except.error (PyErr.typeError "Object is not JSON serializable")
  | some parts => Except.ok ("[" ++ String.intercalate ", " parts ++ "]")

def hexChar (n : Nat) : Char :=
  match n % 16 with
  | 0 => '0'
  | 1 => '1'
  | 2 => '2'
  | 3 => '3'
  | 4 => '4'
  | 5 => '5'
  | 6 => '6'
  | 7 => '7'
  | 8 => '8'
  | 9 => '9'
  | 10 => 'a'
  | 11 => 'b'
  | 12 => 'c'
  | 13 => 'd'
  | 14 => 'e'
  | 15 => 'f'
  | _ => '0'

/-- Modelled from the spec: `hashlib.sha1(...).hexdigest()` — an external
cryptographic digest, modelled as a deterministic function from the input
string to a 40-character lowercase-hex string. -/
def sha1_hexdigest (s : String) : String :=
  let h := s.data.foldl (fun acc c => (acc * 131 + c.toNat) % (2 ^ 160)) 7
  String.mk ((List.range 40).map (fun i => hexChar (h / 16 ^ i % 16)))

/-- `_hash_args(*args)`: drop never-hashed argument types, transform the
rest, serialize deterministically with `json.dumps`, digest with sha1. -/
def _hash_args (args : List Arg) : Except PyErr String :=
  (jsonDumpsH (args.filterMap Arg.toHashable)).map sha1_hexdigest

/-- Round-half-to-even to an integer, the tie rule of Python `round`. -/
def roundHalfEven (q : ℚ) : ℤ :=
  let f : ℤ := ⌊q⌋
  if q - f < 1 / 2 then f
  else if 1 / 2 < q - f then f + 1
  else if f % 2 = 0 then f else f + 1

/-- Python `round(x, 1)`: round to the nearest tenth. -/
def pythonRound1 (q : ℚ) : ℚ :=
  (roundHalfEven (q * 10) : ℚ) / 10

/-- `_sanitize_observer_look_args(*args)`: datetimes are replaced by
`STATIC_EARTH_INERTIAL_DATETIME`, floating-point numbers are rounded to
the nearest tenth, everything else is passed through. -/
def _sanitize_observer_look_args : List Arg → List Arg
  | [] => []
  | arg :: rest =>
    (match arg with
      | Arg.datetime _ => Arg.datetime STATIC_EARTH_INERTIAL_DATETIME
      | Arg.pyFloat q => Arg.pyFloat (pythonRound1 q)
      | a => a) :: _sanitize_observer_look_args rest

def anySuffix (f : List Char → Bool) : List Char → Bool
  | [] => f []
  | c :: cs => f (c :: cs) || anySuffix f cs

/-- Shell-glob matching of a pattern against a file name: a literal
character matches itself and a star matches any (possibly empty) run of
characters.  Models the matching performed by `glob.glob` on the file-name
component of the patterns the source builds. -/
def globMatch : List Char → List Char → Bool
  | [], cs => cs.isEmpty
  | p :: ps, cs =>
    if p == '*' then anySuffix (globMatch ps) cs
    else
      match cs with
      | [] => false
      | c :: cs => p == c && globMatch ps cs

/-- One on-disk zarr artifact directory: parent directory, directory name,
and the array data stored inside. -/
structure FSEntry where
  dir : String
  fname : String
  data : ArrData
  deriving DecidableEq, Repr

/-- The filesystem state: the artifact directories that exist, in creation
order (which is also the order `glob` enumerates them in this model). -/
structure FS where
  entries : List FSEntry
  deriving DecidableEq, Repr

/-- `glob.glob(os.path.join(dir, pattern))`: every artifact in `dir` whose
name matches `pattern`, paired with its stored data, in enumeration
order. -/
def FS.glob (fs : FS) (dir : String) (pattern : String) : List (String × ArrData) :=
  fs.entries.filterMap (fun e =>
    if (e.dir == dir) && globMatch pattern.data e.fname.data then some (e.fname, e.data)
    else none)

/-- `da.from_zarr(path)`: reopen a stored artifact as a lazy array backed
by that zarr store. -/
def DaskArr.from_zarr (dir : String) (pr : String × ArrData) : DaskArr :=
  ⟨DaskSource.zarr dir pr.1, pr.2⟩

/-- The `"{name}_v{version}" + "_{}_" + "{hash}.zarr"` format string of
`ZarrCacheHelper._zarr_pattern`, kept as the text before and after the
`{}` hole. -/
structure ZarrFmt where
  pre : String
  post : String
  deriving DecidableEq, Repr

/-- `zarr_format.format(s)`. -/
def ZarrFmt.format (f : ZarrFmt) (s : String) : String :=
  f.pre ++ s ++ f.post

/-- The values a Python expression in this code can evaluate to: a tuple,
a dask array, or some other object. -/
inductive Value where
  | tup (vs : List Value)
  | arr (a : DaskArr)
  | other (id : Nat)

/-- `satpy.config`: the boolean feature flags and the `cache_dir`
setting.  `cache_dir = none` models an unset/None cache directory. -/
structure Config where
  flags : List (String × Bool)
  cache_dir : Option String

/-- `satpy.config.get(key, False)` for a boolean flag. -/
def Config.getFlag (cfg : Config) (key : String) : Bool :=
  match cfg.flags.lookup key with
  | some b => b
  | none => false

/-- The state held by a `ZarrCacheHelper` instance.  `func_name` models
`self._func.__name__`. -/
structure ZarrCacheHelper where
  func : List Arg → Value
  func_name : String
  cache_config_key : String
  uncacheable_arg_types : List ArgTag
  sanitize_args_func : Option (List Arg → List Arg)
  cache_version : Nat

/-- The default `uncacheable_arg_types=(SwathDefinition, xr.DataArray,
da.Array)`. -/
def default_uncacheable_arg_types : List ArgTag :=
  [ArgTag.swathDef, ArgTag.dataArray, ArgTag.daskArray]

/-- The `cache_to_zarr_if` decorator: build the helper wrapping `func`. -/
def cache_to_zarr_if (cache_config_key : String) (uncacheable_arg_types : List ArgTag)
    (sanitize_args_func : Option (List Arg → List Arg))
    (func : List Arg → Value) (func_name : String) : ZarrCacheHelper :=
  { func := func
    func_name := func_name
    cache_config_key := cache_config_key
    uncacheable_arg_types := uncacheable_arg_types
    sanitize_args_func := sanitize_args_func
    cache_version := 1 }

/-- Apply `self._sanitize_args_func` when one was provided, else keep the
original arguments. -/
def applySanitize (h : ZarrCacheHelper) (args : List Arg) : List Arg :=
  match h.sanitize_args_func with
  | some f => f args
  | none => args

/-- `ZarrCacheHelper._zarr_pattern(arg_hash, cache_version)`. -/
def ZarrCacheHelper.zarr_pattern (h : ZarrCacheHelper) (arg_hash : String)
    (cache_version : String) : ZarrFmt :=
  ⟨h.func_name ++ "_v" ++ cache_version ++ "_", "_" ++ arg_hash ++ ".zarr"⟩

/-- `ZarrCacheHelper._get_should_cache_and_cache_dir(args, cache_dir)`:
flag from config, no uncacheable-typed argument, cache directory from the
per-call override else from config; a missing cache directory forces
`should_cache = False`. -/
def ZarrCacheHelper.get_should_cache_and_cache_dir (h : ZarrCacheHelper) (cfg : Config)
    (args : List Arg) (cache_dir : Option String) : Bool × Option String :=
  let should_cache := cfg.getFlag h.cache_config_key
  let can_cache := !(args.any (fun a => h.uncacheable_arg_types.contains a.tag))
  let should_cache := should_cache && can_cache
  let cache_dir :=
    match cache_dir with
    | none => cfg.cache_dir
    | some d => some d
  match cache_dir with
  | none => (false, none)
  | some d => (should_cache, some d)

/-- `iter`/`enumerate` over the value returned by the wrapped function.
Only tuple results are modelled as iterable; the two wrapped functions of
the source return tuples. -/
def Value.iterate : Value → Except PyErr (List Value)
  | Value.tup vs => Except.ok vs
  | _ => Except.error (PyErr.typeError "object is not iterable")

/-- The loop body of `_cache_results`: check each output is a dask array
(raising `ValueError` otherwise) and schedule its write to
`zarr_format.format(idx)`.  Nothing touches the disk here — the writes are
delayed (`compute=False`) and performed together by `da.compute`. -/
def delayedWrites : List Value → Nat → ZarrFmt → Except PyErr (List (String × ArrData))
  | [], _, _ => Except.ok []
  | v :: rest, idx, fmt =>
    match v with
    | Value.arr a =>
      (delayedWrites rest (idx + 1) fmt).map
        (fun tl => (fmt.format (toString idx), a.data) :: tl)
    | _ => Except.error (PyErr.valueError "Zarr caching currently only supports dask arrays.")

/-- `ZarrCacheHelper._cache_results(res, zarr_format)`: verify every
output is a dask array, then materialize all outputs to their zarr stores
in one batched `da.compute` (modelled: append all entries at once).  An
error leaves the filesystem exactly as it was. -/
def _cache_results (res : Value) (dir : String) (fmt : ZarrFmt) (fs : FS) :
    Except (PyErr × FS) FS :=
  match res.iterate with
  | Except.error e => Except.error (e, fs)
  | Except.ok subs =>
    match delayedWrites subs 0 fmt with
    | Except.error e => Except.error (e, fs)
    | Except.ok writes =>
      Except.ok ⟨fs.entries ++ writes.map (fun w => ⟨dir, w.1, w.2⟩)⟩

/-- `ZarrCacheHelper.__call__(*args, cache_dir=...)`.  The returned triple
is (result value, filesystem after the call, number of invocations of the
wrapped function during the call); an error carries the filesystem at
raise time.  `os.path.join(None, ...)` raises `TypeError`, which the model
reproduces when no cache directory resolves. -/
def ZarrCacheHelper.call (h : ZarrCacheHelper) (cfg : Config) (args : List Arg)
    (cache_dir : Option String) (fs : FS) : Except (PyErr × FS) (Value × FS × Nat) :=
  let new_args := applySanitize h args
  match _hash_args new_args with
  | Except.error e => Except.error (e, fs)
  | Except.ok arg_hash =>
    match h.get_should_cache_and_cache_dir cfg new_args cache_dir with
    | (_, none) =>
      Except.error (PyErr.typeError "expected str, bytes or os.PathLike object, not NoneType", fs)
    | (should_cache, some d) =>
      let fmt := h.zarr_pattern arg_hash (toString h.cache_version)
      let zarr_paths := FS.glob fs d (fmt.format "*")
      let step : Except (PyErr × FS) (Option Value × FS × Nat) :=
        if !should_cache || zarr_paths.isEmpty then
          let call_args := if should_cache then new_args else args
          let res := h.func call_args
          if should_cache && zarr_paths.isEmpty then
            match _cache_results res d fmt fs with
            | Except.error e => Except.error e
            | Except.ok fs1 => Except.ok (some res, fs1, 1)
          else Except.ok (some res, fs, 1)
        else Except.ok (none, fs, 0)
      match step with
      | Except.error e => Except.error e
      | Except.ok (ores, fs1, cnt) =>
        if should_cache then
          match FS.glob fs1 d (fmt.format "*") with
          | [] => Except.error (PyErr.runtimeError "Data was cached to disk but no files were found", fs1)
          | p :: ps =>
            Except.ok (Value.tup ((p :: ps).map (fun pr => Value.arr (DaskArr.from_zarr d pr))), fs1, cnt)
        else
          match ores with
          | some r => Except.ok (r, fs1, cnt)
          | none => Except.ok (Value.other 0, fs1, cnt)

/-- `ZarrCacheHelper.cache_clear(cache_dir)`: resolve the cache directory
(raising `RuntimeError` when none is configured), then remove every
artifact directory matching `{name}_v*_*_*.zarr` under it.  Individual
removal failures are skipped; removal itself always succeeds in this
model. -/
def ZarrCacheHelper.cache_clear (h : ZarrCacheHelper) (cfg : Config)
    (cache_dir : Option String) (fs : FS) : Except (PyErr × FS) FS :=
  let cdir :=
    match cache_dir with
    | none => cfg.cache_dir
    | some d => some d
  match cdir with
  | none => Except.error (PyErr.runtimeError "No cache_dir configured.", fs)
  | some d =>
    let pattern := ZarrFmt.format (h.zarr_pattern "*" "*") "*"
    Except.ok ⟨fs.entries.filter (fun e => !((e.dir == d) && globMatch pattern.data e.fname.data))⟩

/-- `1e30`, the invalid-coordinate sentinel. -/
def ten30 : ℚ := 10 ^ 30

/-- `da.where(x >= 1e30, np.nan, x)` applied elementwise (NaN compares
false, so NaN elements stay NaN). -/
def _nan_filter (a : ArrData) : ArrData :=
  a.map (fun x =>
    match x with
    | none => none
    | some q => if ten30 ≤ q then none else some q)

/-- The undecorated body of `_get_valid_lonlats(area, chunks)`: fetch the
longitude/latitude grids and replace every value at or above `1e30` with
NaN.  Calls with an argument list not of the source signature are not
modelled (the source would raise `TypeError`). -/
def _get_valid_lonlats_func : List Arg → Value
  | [Arg.areaDef g, c] =>
    let ll := g.get_lonlats c.toChunks
    Value.tup [Value.arr ⟨DaskSource.computed, _nan_filter ll.1⟩,
               Value.arr ⟨DaskSource.computed, _nan_filter ll.2⟩]
  | _ => Value.other 0

/-- The decorated `_get_valid_lonlats`:
`@cache_to_zarr_if("cache_lonlats")`. -/
def _get_valid_lonlats : ZarrCacheHelper :=
  cache_to_zarr_if "cache_lonlats" default_uncacheable_arg_types none
    _get_valid_lonlats_func "_get_valid_lonlats"

/-- Modelled from the spec: the undecorated body of
`_get_sensor_angles_from_sat_pos` is the sensor look-angle computation, an
astronomy step outside the caching subsystem (spec §1 places the formulas
out of scope); only its call interface matters to the claims, so the body
is opaque data. -/
def _get_sensor_angles_from_sat_pos_func : List Arg → Value :=
  fun _ => Value.other 1

/-- The decorated `_get_sensor_angles_from_sat_pos`:
`@cache_to_zarr_if("cache_sensor_angles",
sanitize_args_func=_sanitize_observer_look_args)`. -/
def _get_sensor_angles_from_sat_pos : ZarrCacheHelper :=
  cache_to_zarr_if "cache_sensor_angles" default_uncacheable_arg_types
    (some _sanitize_observer_look_args)
    _get_sensor_angles_from_sat_pos_func "_get_sensor_angles_from_sat_pos"

/-- The fingerprint `__call__` computes for the sensor-angle function:
hash of the sanitized arguments (lines 136–137 of the source). -/
def sensor_fingerprint (args : List Arg) : Except PyErr String :=
  _hash_args (_sanitize_observer_look_args args)

/-- The positional argument list of a `_get_valid_lonlats(area, chunks)`
call. -/
def lonlats_call_args (g : AreaDef) (c : Arg) : List Arg :=
  [Arg.areaDef g, c]

/-- A value of the source's chunk-specification type `Union[int, str]`. -/
def isChunkSpec : Arg → Bool
  | Arg.pyInt _ => true
  | Arg.pyStr _ => true
  | _ => false

/-- `isinstance(v, da.Array)` on a result element. -/
def Value.isDaskArr : Value → Bool
  | Value.arr _ => true
  | _ => false

/-- Fixture: a cached one-output function used to evaluate the call path
at a concrete input. -/
def w1_helper : ZarrCacheHelper :=
  cache_to_zarr_if "w1_flag" default_uncacheable_arg_types none
    (fun _ => Value.tup [Value.arr ⟨DaskSource.computed, [some 1]⟩]) "w1_func"

def w1_cfg : Config := ⟨[("w1_flag", true)], some "/cache"⟩

/-- Fixture: a cached two-output function. -/
def w9_helper : ZarrCacheHelper :=
  cache_to_zarr_if "w9_flag" default_uncacheable_arg_types none
    (fun _ => Value.tup [Value.arr ⟨DaskSource.computed, [some 1]⟩,
                         Value.arr ⟨DaskSource.computed, [some 2]⟩]) "w9_func"

def w9_cfg : Config := ⟨[("w9_flag", true)], some "/cache"⟩

/-- Fixture: a cache state holding three artifacts for the fingerprint of
`w9_helper` applied to `[Arg.pyInt 3]` — more than the two outputs the
wrapped function would return. -/
def w9_fs : FS :=
  ⟨[⟨"/cache", (w9_helper.zarr_pattern (sha1_hexdigest "[3]") "1").format "0", [some 5]⟩,
    ⟨"/cache", (w9_helper.zarr_pattern (sha1_hexdigest "[3]") "1").format "1", [some 6]⟩,
    ⟨"/cache", (w9_helper.zarr_pattern (sha1_hexdigest "[3]") "1").format "2", [some 7]⟩]⟩

/-- ## Lemmas about glob matching -/

theorem anySuffix_of_head (f : List Char → Bool) (s : List Char) (h : f s = true) :
    anySuffix f s = true := by
  cases s with
  | nil => simpa [anySuffix] using h
  | cons c cs => simp [anySuffix, h]

theorem globMatch_lit_append (lit : List Char) (hstar : '*' ∉ lit) (ps s : List Char) :
    globMatch (lit ++ ps) (lit ++ s) = globMatch ps s := by
  induction lit with
  | nil => rfl
  | cons a l ih =>
    have ha : (a == '*') = false := by
      simp only [List.mem_cons] at hstar
      simp [beq_eq_false_iff_ne]
      intro hEq
      exact hstar (Or.inl hEq.symm)
    have hl : '*' ∉ l := fun hm => hstar (List.mem_cons_of_mem a hm)
    simp [globMatch, ha, ih hl]

theorem globMatch_self (l : List Char) (hstar : '*' ∉ l) : globMatch l l = true := by
  have := globMatch_lit_append l hstar [] []
  simpa using this

theorem globMatch_star_skip (ps s : List Char) (h : globMatch ps s = true) :
    globMatch ('*' :: ps) s = true := by
  simp only [globMatch]
  rw [if_pos (by rfl)]
  exact anySuffix_of_head _ _ h

theorem globMatch_star_absorb (ps s : List Char) (h : globMatch ps s = true) :
    ∀ t : List Char, globMatch ('*' :: ps) (t ++ s) = true := by
  intro t
  induction t with
  | nil => simpa using globMatch_star_skip ps s h
  | cons c t iht =>
    simp only [globMatch, List.cons_append]
    rw [if_pos (by rfl)]
    simp only [anySuffix]
    simp only [globMatch] at iht
    rw [if_pos (by rfl)] at iht
    simp [iht]

theorem globMatch_wrap (pre mid post : List Char) (hpre : '*' ∉ pre) (hpost : '*' ∉ post) :
    globMatch (pre ++ '*' :: post) (pre ++ (mid ++ post)) = true := by
  rw [globMatch_lit_append pre hpre]
  exact globMatch_star_absorb post post (globMatch_self post hpost) mid

theorem globMatch_mismatch (lit1 lit2 : List Char) (ps cs : List Char)
    (hstar : '*' ∉ lit1) (hlen : lit1.length = lit2.length) (hne : lit1 ≠ lit2) :
    globMatch (lit1 ++ ps) (lit2 ++ cs) = false := by
  induction lit1 generalizing lit2 with
  | nil =>
    cases lit2 with
    | nil => exact absurd rfl hne
    | cons b l2 => simp at hlen
  | cons a l1 ih =>
    cases lit2 with
    | nil => simp at hlen
    | cons b l2 =>
      have ha : (a == '*') = false := by
        simp only [List.mem_cons] at hstar
        simp [beq_eq_false_iff_ne]
        intro hEq
        exact hstar (Or.inl hEq.symm)
      by_cases hab : a = b
      · subst hab
        have hl : '*' ∉ l1 := fun hm => hstar (List.mem_cons_of_mem a hm)
        have hlen2 : l1.length = l2.length := by simpa using hlen
        have hne2 : l1 ≠ l2 := by
          intro hEq
          exact hne (by rw [hEq])
        simp [globMatch, ha, ih l2 hl hlen2 hne2]
      · have hab2 : (a == b) = false := by
          simp [beq_eq_false_iff_ne]
          exact hab
        simp [globMatch, ha, hab2]

theorem hexChar_ne_star (n : Nat) : hexChar n ≠ '*' := by
  unfold hexChar
  split <;> decide

theorem star_not_mem_sha1 (s : String) : '*' ∉ (sha1_hexdigest s).data := by
  unfold sha1_hexdigest
  intro hmem
  simp only [String.mk, List.mem_map] at hmem
  obtain ⟨i, _, hi⟩ := hmem
  exact hexChar_ne_star _ hi

/-- `_sanitize_observer_look_args` processes arguments elementwise, so it
distributes over list append. -/
theorem sanitize_append (l1 l2 : List Arg) :
    _sanitize_observer_look_args (l1 ++ l2) =
      _sanitize_observer_look_args l1 ++ _sanitize_observer_look_args l2 := by
  induction l1 with
  | nil => rfl
  | cons a l ih => simp [_sanitize_observer_look_args, ih]

/-- C4: the fingerprint is deterministic — two calls with the same function
name, cache version, and the same sanitized argument sequence after
dropping the never-hashed array-like and geometry arguments compute the
identical fingerprint string, and hence identical artifact paths. -/
theorem fingerprint_deterministic (h1 h2 : ZarrCacheHelper) (args1 args2 : List Arg)
    (a1 a2 : String)
    (hname : h1.func_name = h2.func_name)
    (hver : h1.cache_version = h2.cache_version)
    (hred : (applySanitize h1 args1).filterMap Arg.toHashable
          = (applySanitize h2 args2).filterMap Arg.toHashable)
    (hh1 : _hash_args (applySanitize h1 args1) = Except.ok a1)
    (hh2 : _hash_args (applySanitize h2 args2) = Except.ok a2) :
    a1 = a2 ∧ ∀ s, (h1.zarr_pattern a1 (toString h1.cache_version)).format s
                 = (h2.zarr_pattern a2 (toString h2.cache_version)).format s := by
  have hEq : _hash_args (applySanitize h1 args1) = _hash_args (applySanitize h2 args2) := by
    unfold _hash_args
    rw [hred]
  rw [hh1, hh2] at hEq
  have ha : a1 = a2 := by
    simpa using hEq
  refine ⟨ha, fun s => ?_⟩
  simp [ZarrCacheHelper.zarr_pattern, ZarrFmt.format, hname, hver, ha]

theorem fingerprint_deterministic_witness :
    (applySanitize _get_valid_lonlats [Arg.pyInt 5, Arg.swathDef 3]).filterMap Arg.toHashable
      = (applySanitize _get_valid_lonlats [Arg.dataArray 9, Arg.pyInt 5]).filterMap Arg.toHashable
    ∧ (sha1_hexdigest "[5]" = sha1_hexdigest "[5]"
       ∧ ∀ s, ((_get_valid_lonlats.zarr_pattern (sha1_hexdigest "[5]")
                  (toString _get_valid_lonlats.cache_version)).format s)
            = ((_get_valid_lonlats.zarr_pattern (sha1_hexdigest "[5]")
                  (toString _get_valid_lonlats.cache_version)).format s)) :=
  ⟨rfl, fingerprint_deterministic _get_valid_lonlats _get_valid_lonlats
    [Arg.pyInt 5, Arg.swathDef 3] [Arg.dataArray 9, Arg.pyInt 5]
    (sha1_hexdigest "[5]") (sha1_hexdigest "[5]") rfl rfl rfl rfl rfl⟩

/-- C8: the argument sanitizer is a pure function returning a sequence of
the same arity and order in which every datetime argument becomes the
fixed canonical instant, every float is rounded to one decimal, and every
other argument passes through unchanged. -/
theorem sanitize_same_arity_and_transforms (args : List Arg) :
    (_sanitize_observer_look_args args).length = args.length
    ∧ ∀ i : Nat, (_sanitize_observer_look_args args)[i]? = args[i]?.map (fun a =>
        match a with
        | Arg.datetime _ => Arg.datetime STATIC_EARTH_INERTIAL_DATETIME
        | Arg.pyFloat q => Arg.pyFloat (pythonRound1 q)
        | a => a) := by
  induction args with
  | nil => exact ⟨rfl, fun i => by cases i <;> rfl⟩
  | cons a l ih =>
    refine ⟨by simp [_sanitize_observer_look_args, ih.1], fun i => ?_⟩
    cases i with
    | zero => cases a <;> simp [_sanitize_observer_look_args]
    | succ n => simpa [_sanitize_observer_look_args] using ih.2 n

/-- C5: sanitization collapses near-duplicate sensor-angle calls — equal
one-decimal rounding buckets of a float position argument give equal
fingerprints, any two timestamps give equal fingerprints, and the
grid-extraction call has no timestamp among its arguments at all. -/
theorem sanitize_collapsing_fingerprints
    (pre suf : List Arg) (x y : ℚ) (t1 t2 : DateTimeM) (g : AreaDef) (c : Arg)
    (hround : pythonRound1 x = pythonRound1 y) (hc : isChunkSpec c = true) :
    sensor_fingerprint (pre ++ Arg.pyFloat x :: suf)
      = sensor_fingerprint (pre ++ Arg.pyFloat y :: suf)
    ∧ sensor_fingerprint (pre ++ Arg.datetime t1 :: suf)
      = sensor_fingerprint (pre ++ Arg.datetime t2 :: suf)
    ∧ ∀ a ∈ lonlats_call_args g c, a.tag ≠ ArgTag.datetime := by
  refine ⟨?_, ?_, ?_⟩
  · unfold sensor_fingerprint
    rw [sanitize_append pre (Arg.pyFloat x :: suf), sanitize_append pre (Arg.pyFloat y :: suf)]
    simp only [_sanitize_observer_look_args]
    rw [hround]
  · unfold sensor_fingerprint
    rw [sanitize_append pre (Arg.datetime t1 :: suf), sanitize_append pre (Arg.datetime t2 :: suf)]
    simp only [_sanitize_observer_look_args]
  · intro a ha
    simp only [lonlats_call_args, List.mem_cons] at ha
    rcases ha with h1 | h2 | h3
    · subst h1
      simp [Arg.tag]
    · subst h2
      cases a <;> simp_all [isChunkSpec, Arg.tag]
    · exact absurd h3 (List.not_mem_nil a)

theorem sanitize_collapsing_fingerprints_witness :
    pythonRound1 (501 / 50) = pythonRound1 (251 / 25)
    ∧ isChunkSpec (Arg.pyStr "auto") = true
    ∧ (sensor_fingerprint ([] ++ Arg.pyFloat (501 / 50) :: [])
         = sensor_fingerprint ([] ++ Arg.pyFloat (251 / 25) :: [])) := by
  have hround : pythonRound1 (501 / 50) = pythonRound1 (251 / 25) := by
    norm_num [pythonRound1, roundHalfEven]
  exact ⟨hround, rfl,
    (sanitize_collapsing_fingerprints [] [] (501 / 50) (251 / 25)
      ⟨2000, 1, 1, 0, 0, 0⟩ ⟨2001, 2, 3, 4, 5, 6⟩
      ⟨0, fun _ => ([], [])⟩ (Arg.pyStr "auto") hround rfl).1⟩

/-- If any element is not a dask array, the write loop raises `ValueError`
(whatever the starting index). -/
theorem delayedWrites_error_of_bad (subs : List Value) (fmt : ZarrFmt)
    (hbad : ∃ v ∈ subs, v.isDaskArr = false) :
    ∀ idx, delayedWrites subs idx fmt
      = Except.error (PyErr.valueError "Zarr caching currently only supports dask arrays.") := by
  induction subs with
  | nil =>
    obtain ⟨v, hv, _⟩ := hbad
    exact absurd hv (List.not_mem_nil v)
  | cons v rest ih =>
    intro idx
    cases v with
    | arr a =>
      obtain ⟨w, hw, hwbad⟩ := hbad
      rcases List.mem_cons.mp hw with hEq | hmem
      · subst hEq
        simp [Value.isDaskArr] at hwbad
      · simp [delayedWrites, ih ⟨w, hmem, hwbad⟩ (idx + 1), Except.map]
    | tup vs => simp [delayedWrites]
    | other id => simp [delayedWrites]

/-- If every element is a dask array, the write loop schedules one write
per output. -/
theorem delayedWrites_ok_of_all_arr (subs : List Value) (fmt : ZarrFmt)
    (hgood : ∀ v ∈ subs, v.isDaskArr = true) :
    ∀ idx, ∃ ws, delayedWrites subs idx fmt = Except.ok ws ∧ ws.length = subs.length := by
  induction subs with
  | nil => exact fun idx => ⟨[], rfl, rfl⟩
  | cons v rest ih =>
    intro idx
    cases v with
    | arr a =>
      obtain ⟨ws, hws, hlen⟩ := ih (fun w hw => hgood w (List.mem_cons_of_mem _ hw)) (idx + 1)
      exact ⟨(fmt.format (toString idx), a.data) :: ws,
        by simp [delayedWrites, hws, Except.map], by simp [hlen]⟩
    | tup vs => simpa [Value.isDaskArr] using hgood (Value.tup vs) (List.mem_cons_self _ _)
    | other id => simpa [Value.isDaskArr] using hgood (Value.other id) (List.mem_cons_self _ _)

/-- C6: the cache-write step raises a type-mismatch `ValueError` when any
to-be-cached output is not a dask array, before anything is written (the
filesystem is untouched); when all outputs are dask arrays, all of them
are stored together in one step, one artifact per output. -/
theorem cache_write_type_check_before_any_write
    (subs : List Value) (d : String) (fmt : ZarrFmt) (fs : FS) :
    ((∃ v ∈ subs, v.isDaskArr = false) →
       _cache_results (Value.tup subs) d fmt fs
         = Except.error (PyErr.valueError "Zarr caching currently only supports dask arrays.", fs))
    ∧ ((∀ v ∈ subs, v.isDaskArr = true) →
       ∃ ws, delayedWrites subs 0 fmt = Except.ok ws ∧ ws.length = subs.length ∧
         _cache_results (Value.tup subs) d fmt fs
           = Except.ok ⟨fs.entries ++ ws.map (fun w => (⟨d, w.1, w.2⟩ : FSEntry))⟩) := by
  constructor
  · intro hbad
    simp [_cache_results, Value.iterate, delayedWrites_error_of_bad subs fmt hbad 0]
  · intro hgood
    obtain ⟨ws, hws, hlen⟩ := delayedWrites_ok_of_all_arr subs fmt hgood 0
    exact ⟨ws, hws, hlen, by simp [_cache_results, Value.iterate, hws]⟩

theorem cache_write_type_check_before_any_write_witness :
    (∃ v ∈ [Value.arr ⟨DaskSource.computed, []⟩, Value.other 7], v.isDaskArr = false)
    ∧ _cache_results (Value.tup [Value.arr ⟨DaskSource.computed, []⟩, Value.other 7]) "/c"
        ⟨"f_v1_", "_h.zarr"⟩ ⟨[]⟩
        = Except.error (PyErr.valueError "Zarr caching currently only supports dask arrays.", ⟨[]⟩) := by
  have hbad : ∃ v ∈ [Value.arr ⟨DaskSource.computed, []⟩, Value.other 7], v.isDaskArr = false :=
    ⟨Value.other 7, by simp, rfl⟩
  exact ⟨hbad,
    (cache_write_type_check_before_any_write
      [Value.arr ⟨DaskSource.computed, []⟩, Value.other 7] "/c" ⟨"f_v1_", "_h.zarr"⟩ ⟨[]⟩).1 hbad⟩

/-- A `json.dumps`-rejected element anywhere in the list makes the whole
serialization fail. -/
theorem renderAll_none_of_bad (l : List HArg) (k : Nat) (hmem : HArg.hbad k ∈ l) :
    renderAll l = none := by
  induction l with
  | nil => exact absurd hmem (List.not_mem_nil _)
  | cons a rest ih =>
    rcases List.mem_cons.mp hmem with hEq | hmem2
    · subst hEq
      simp [renderAll, hargRender]
    · cases ha : hargRender a <;> simp [renderAll, ha, ih hmem2]

/-- C10: the fingerprint is computed on every call before eligibility, so
an argument that survives sanitization, is not of a dropped type, not a
geometry, not a timestamp, and not JSON-serializable makes the decorated
call raise the serialization `TypeError` — whatever the configuration,
including caching disabled — with the filesystem untouched and the
wrapped function never invoked. -/
theorem nonserializable_arg_raises_before_eligibility
    (h : ZarrCacheHelper) (cfg : Config) (args : List Arg) (cdir : Option String) (fs : FS)
    (k : Nat) (hmem : Arg.nonSerializable k ∈ applySanitize h args) :
    h.call cfg args cdir fs
      = Except.error (PyErr.typeError "Object is not JSON serializable", fs) := by
  have hbad : HArg.hbad k ∈ (applySanitize h args).filterMap Arg.toHashable :=
    List.mem_filterMap.mpr ⟨Arg.nonSerializable k, hmem, rfl⟩
  have hhash : _hash_args (applySanitize h args)
      = Except.error (PyErr.typeError "Object is not JSON serializable") := by
    unfold _hash_args jsonDumpsH
    rw [renderAll_none_of_bad _ k hbad]
    rfl
  simp [ZarrCacheHelper.call, hhash]

theorem nonserializable_arg_raises_before_eligibility_witness :
    Arg.nonSerializable 4 ∈ applySanitize _get_valid_lonlats [Arg.nonSerializable 4]
    ∧ _get_valid_lonlats.call ⟨[("cache_lonlats", false)], some "/c"⟩ [Arg.nonSerializable 4]
        none ⟨[]⟩
      = Except.error (PyErr.typeError "Object is not JSON serializable", ⟨[]⟩) :=
  ⟨List.mem_singleton.mpr rfl,
    nonserializable_arg_raises_before_eligibility _get_valid_lonlats
      ⟨[("cache_lonlats", false)], some "/c"⟩ [Arg.nonSerializable 4] none ⟨[]⟩ 4
      (List.mem_singleton.mpr rfl)⟩

/-- C3 (code-bug evidence): when no cache directory is resolvable — the
per-call override and the configured `cache_dir` are both absent — the
call does not degrade silently: although
`_get_should_cache_and_cache_dir` disables caching for exactly this case,
`os.path.join(None, zarr_fn)` raises `TypeError` before the wrapped
function can run. -/
theorem no_cache_dir_raises_join_type_error
    (h : ZarrCacheHelper) (cfg : Config) (args : List Arg) (fs : FS) (ah : String)
    (hh : _hash_args (applySanitize h args) = Except.ok ah)
    (hnone : cfg.cache_dir = none) :
    h.call cfg args none fs
      = Except.error (PyErr.typeError "expected str, bytes or os.PathLike object, not NoneType", fs) := by
  have hsc : h.get_should_cache_and_cache_dir cfg (applySanitize h args) none
      = ((cfg.getFlag h.cache_config_key
            && !((applySanitize h args).any (fun a => h.uncacheable_arg_types.contains a.tag)))
           && false, none) := by
    simp [ZarrCacheHelper.get_should_cache_and_cache_dir, hnone]
  simp [ZarrCacheHelper.call, hh, hsc]

theorem no_cache_dir_raises_join_type_error_witness :
    _hash_args (applySanitize _get_valid_lonlats [Arg.pyInt 7]) = Except.ok (sha1_hexdigest "[7]")
    ∧ _get_valid_lonlats.call ⟨[("cache_lonlats", true)], none⟩ [Arg.pyInt 7] none ⟨[]⟩
      = Except.error (PyErr.typeError "expected str, bytes or os.PathLike object, not NoneType", ⟨[]⟩) :=
  ⟨rfl, no_cache_dir_raises_join_type_error _get_valid_lonlats
    ⟨[("cache_lonlats", true)], none⟩ [Arg.pyInt 7] ⟨[]⟩ (sha1_hexdigest "[7]") rfl rfl⟩

theorem string_data_append (a b : String) : (a ++ b).data = a.data ++ b.data := rfl

theorem lonlats_clear_pattern_eq :
    ZarrFmt.format (_get_valid_lonlats.zarr_pattern "*" "*") "*"
      = "_get_valid_lonlats_v*_*_*.zarr" := rfl

theorem sensor_clear_pattern_eq :
    ZarrFmt.format (_get_sensor_angles_from_sat_pos.zarr_pattern "*" "*") "*"
      = "_get_sensor_angles_from_sat_pos_v*_*_*.zarr" := rfl

/-- The clear pattern of the grid-extraction cache cannot match any
artifact name of the sensor-angle cache: their literal name prefixes
disagree. -/
theorem lonlats_pattern_no_sensor_match (v i hs : String) :
    globMatch ("_get_valid_lonlats_v*_*_*.zarr" : String).data
      ("_get_sensor_angles_from_sat_pos_v" ++ v ++ "_" ++ i ++ "_" ++ hs ++ ".zarr").data
      = false := by
  have hpat : ("_get_valid_lonlats_v*_*_*.zarr" : String).data
      = "_get_v".data ++ "alid_lonlats_v*_*_*.zarr".data := rfl
  have h1 : ("_get_sensor_angles_from_sat_pos_v" : String)
      = "_get_s" ++ "ensor_angles_from_sat_pos_v" := rfl
  rw [hpat, h1]
  simp only [string_data_append, List.append_assoc]
  exact globMatch_mismatch _ _ _ _ (by decide) (by decide) (by decide)

/-- The clear pattern of the sensor-angle cache cannot match any artifact
name of the grid-extraction cache. -/
theorem sensor_pattern_no_lonlats_match (v i hs : String) :
    globMatch ("_get_sensor_angles_from_sat_pos_v*_*_*.zarr" : String).data
      ("_get_valid_lonlats_v" ++ v ++ "_" ++ i ++ "_" ++ hs ++ ".zarr").data
      = false := by
  have hpat : ("_get_sensor_angles_from_sat_pos_v*_*_*.zarr" : String).data
      = "_get_s".data ++ "ensor_angles_from_sat_pos_v*_*_*.zarr".data := rfl
  have h1 : ("_get_valid_lonlats_v" : String) = "_get_v" ++ "alid_lonlats_v" := rfl
  rw [hpat, h1]
  simp only [string_data_append, List.append_assoc]
  exact globMatch_mismatch _ _ _ _ (by decide) (by decide) (by decide)

/-- C7: `cache_clear` is namespace-isolated — clearing the grid-extraction
cache removes only entries matching its own name/version pattern in the
resolved cache root and leaves every sensor-angle artifact in place, and
symmetrically for clearing the sensor-angle cache. -/
theorem cache_clear_namespace_isolation
    (cfg : Config) (override : Option String) (fs : FS) (d : String)
    (hres : (match override with | none => cfg.cache_dir | some x => some x) = some d) :
    (∃ fs1, _get_valid_lonlats.cache_clear cfg override fs = Except.ok fs1
      ∧ (∀ e, e ∈ fs1.entries → e ∈ fs.entries)
      ∧ (∀ e, e ∈ fs.entries → e ∉ fs1.entries →
          e.dir = d
          ∧ globMatch (ZarrFmt.format (_get_valid_lonlats.zarr_pattern "*" "*") "*").data
              e.fname.data = true)
      ∧ (∀ e, e ∈ fs.entries →
          (∃ v i hs, e.fname = "_get_sensor_angles_from_sat_pos_v" ++ v ++ "_" ++ i ++ "_" ++ hs ++ ".zarr") →
          e ∈ fs1.entries))
    ∧ (∃ fs2, _get_sensor_angles_from_sat_pos.cache_clear cfg override fs = Except.ok fs2
      ∧ (∀ e, e ∈ fs2.entries → e ∈ fs.entries)
      ∧ (∀ e, e ∈ fs.entries → e ∉ fs2.entries →
          e.dir = d
          ∧ globMatch (ZarrFmt.format (_get_sensor_angles_from_sat_pos.zarr_pattern "*" "*") "*").data
              e.fname.data = true)
      ∧ (∀ e, e ∈ fs.entries →
          (∃ v i hs, e.fname = "_get_valid_lonlats_v" ++ v ++ "_" ++ i ++ "_" ++ hs ++ ".zarr") →
          e ∈ fs2.entries)) := by
  constructor
  · refine ⟨⟨fs.entries.filter (fun e =>
      !((e.dir == d)
        && globMatch (ZarrFmt.format (_get_valid_lonlats.zarr_pattern "*" "*") "*").data
             e.fname.data))⟩, ?_, ?_, ?_, ?_⟩
    · simp only [ZarrCacheHelper.cache_clear]
      rw [hres]
    · intro e he
      exact (List.mem_filter.mp he).1
    · intro e he hnot
      by_contra hcon
      apply hnot
      refine List.mem_filter.mpr ⟨he, ?_⟩
      simp only [Bool.not_eq_true', Bool.and_eq_false_iff]
      by_cases hd : e.dir = d
      · right
        by_cases hg : globMatch (ZarrFmt.format (_get_valid_lonlats.zarr_pattern "*" "*") "*").data
            e.fname.data = true
        · exact absurd ⟨hd, hg⟩ hcon
        · simpa using hg
      · left
        simp [hd]
    · intro e he hy
      obtain ⟨v, i, hs, hfname⟩ := hy
      refine List.mem_filter.mpr ⟨he, ?_⟩
      rw [lonlats_clear_pattern_eq, hfname, lonlats_pattern_no_sensor_match v i hs]
      simp
  · refine ⟨⟨fs.entries.filter (fun e =>
      !((e.dir == d)
        && globMatch (ZarrFmt.format (_get_sensor_angles_from_sat_pos.zarr_pattern "*" "*") "*").data
             e.fname.data))⟩, ?_, ?_, ?_, ?_⟩
    · simp only [ZarrCacheHelper.cache_clear]
      rw [hres]
    · intro e he
      exact (List.mem_filter.mp he).1
    · intro e he hnot
      by_contra hcon
      apply hnot
      refine List.mem_filter.mpr ⟨he, ?_⟩
      simp only [Bool.not_eq_true', Bool.and_eq_false_iff]
      by_cases hd : e.dir = d
      · right
        by_cases hg : globMatch (ZarrFmt.format (_get_sensor_angles_from_sat_pos.zarr_pattern "*" "*") "*").data
            e.fname.data = true
        · exact absurd ⟨hd, hg⟩ hcon
        · simpa using hg
      · left
        simp [hd]
    · intro e he hy
      obtain ⟨v, i, hs, hfname⟩ := hy
      refine List.mem_filter.mpr ⟨he, ?_⟩
      rw [sensor_clear_pattern_eq, hfname, sensor_pattern_no_lonlats_match v i hs]
      simp

theorem cache_clear_namespace_isolation_witness :
    ((match (none : Option String) with
      | none => (⟨[], some "/c"⟩ : Config).cache_dir
      | some x => some x) = some "/c")
    ∧ (∃ fs1, _get_valid_lonlats.cache_clear ⟨[], some "/c"⟩ none
        ⟨[⟨"/c", "_get_sensor_angles_from_sat_pos_v" ++ "1" ++ "_" ++ "0" ++ "_" ++ "ab" ++ ".zarr", []⟩]⟩
        = Except.ok fs1
      ∧ (∀ e, e ∈ fs1.entries →
          e ∈ (⟨[⟨"/c", "_get_sensor_angles_from_sat_pos_v" ++ "1" ++ "_" ++ "0" ++ "_" ++ "ab" ++ ".zarr", []⟩]⟩ : FS).entries)
      ∧ (∀ e, e ∈ (⟨[⟨"/c", "_get_sensor_angles_from_sat_pos_v" ++ "1" ++ "_" ++ "0" ++ "_" ++ "ab" ++ ".zarr", []⟩]⟩ : FS).entries → e ∉ fs1.entries →
          e.dir = "/c"
          ∧ globMatch (ZarrFmt.format (_get_valid_lonlats.zarr_pattern "*" "*") "*").data
              e.fname.data = true)
      ∧ (∀ e, e ∈ (⟨[⟨"/c", "_get_sensor_angles_from_sat_pos_v" ++ "1" ++ "_" ++ "0" ++ "_" ++ "ab" ++ ".zarr", []⟩]⟩ : FS).entries →
          (∃ v i hs, e.fname = "_get_sensor_angles_from_sat_pos_v" ++ v ++ "_" ++ i ++ "_" ++ hs ++ ".zarr") →
          e ∈ fs1.entries)) :=
  ⟨rfl,
    (cache_clear_namespace_isolation ⟨[], some "/c"⟩ none
      ⟨[⟨"/c", "_get_sensor_angles_from_sat_pos_v" ++ "1" ++ "_" ++ "0" ++ "_" ++ "ab" ++ ".zarr", []⟩]⟩
      "/c" rfl).1⟩

/-- Shared workhorse: an eligible call that returns normally returns the
tuple of reopened artifacts enumerated in the post-call filesystem. -/
theorem call_eligible_result_reopened
    (h : ZarrCacheHelper) (cfg : Config) (args : List Arg) (cdir : Option String) (fs : FS)
    (ah d : String)
    (hh : _hash_args (applySanitize h args) = Except.ok ah)
    (hsc : h.get_should_cache_and_cache_dir cfg (applySanitize h args) cdir = (true, some d)) :
    ∀ v fs1 n, h.call cfg args cdir fs = Except.ok (v, fs1, n) →
      v = Value.tup ((FS.glob fs1 d ((h.zarr_pattern ah (toString h.cache_version)).format "*")).map
          (fun pr => Value.arr (DaskArr.from_zarr d pr))) := by
  intro v fs1 n hcall
  simp only [ZarrCacheHelper.call, hh, hsc, Bool.not_true, Bool.false_or, Bool.true_and,
    if_true] at hcall
  by_cases hemp : (FS.glob fs d ((h.zarr_pattern ah (toString h.cache_version)).format "*")).isEmpty = true
  · simp only [hemp, if_true] at hcall
    cases hcr : _cache_results (h.func (applySanitize h args)) d
        (h.zarr_pattern ah (toString h.cache_version)) fs with
    | error e =>
      rw [hcr] at hcall
      simp at hcall
    | ok fs2 =>
      rw [hcr] at hcall
      simp only [] at hcall
      cases hg : FS.glob fs2 d ((h.zarr_pattern ah (toString h.cache_version)).format "*") with
      | nil =>
        rw [hg] at hcall
        simp at hcall
      | cons p ps =>
        rw [hg] at hcall
        simp only [Except.ok.injEq, Prod.mk.injEq] at hcall
        obtain ⟨hv, hfs, hn⟩ := hcall
        rw [← hfs, hg]
        exact hv.symm
  · simp only [Bool.not_eq_true] at hemp
    simp only [hemp, Bool.false_eq_true, if_false] at hcall
    cases hg : FS.glob fs d ((h.zarr_pattern ah (toString h.cache_version)).format "*") with
    | nil =>
      rw [hg] at hcall
      simp at hcall
    | cons p ps =>
      rw [hg] at hcall
      simp only [Except.ok.injEq, Prod.mk.injEq] at hcall
      obtain ⟨hv, hfs, hn⟩ := hcall
      rw [← hfs, hg]
      exact hv.symm

/-- C1: whenever caching is eligible for a call (feature flag true, no
uncacheable-typed sanitized argument, cache directory resolvable), the
value the caller receives is the tuple of lazily-reopened zarr artifacts
enumerated for the fingerprint in the post-call filesystem — the same
reopened-from-disk form on a hit and on the miss that just wrote the
artifacts. -/
theorem eligible_call_returns_reopened_zarr_tuple
    (h : ZarrCacheHelper) (cfg : Config) (args : List Arg) (cdir : Option String) (fs : FS)
    (ah d : String)
    (hh : _hash_args (applySanitize h args) = Except.ok ah)
    (hsc : h.get_should_cache_and_cache_dir cfg (applySanitize h args) cdir = (true, some d)) :
    ∀ v fs1 n, h.call cfg args cdir fs = Except.ok (v, fs1, n) →
      v = Value.tup ((FS.glob fs1 d ((h.zarr_pattern ah (toString h.cache_version)).format "*")).map
          (fun pr => Value.arr (DaskArr.from_zarr d pr))) :=
  call_eligible_result_reopened h cfg args cdir fs ah d hh hsc

theorem eligible_call_returns_reopened_zarr_tuple_witness :
    _hash_args (applySanitize w1_helper [Arg.pyInt 3]) = Except.ok (sha1_hexdigest "[3]")
    ∧ w1_helper.get_should_cache_and_cache_dir w1_cfg (applySanitize w1_helper [Arg.pyInt 3]) none
        = (true, some "/cache")
    ∧ (∀ v fs1 n, w1_helper.call w1_cfg [Arg.pyInt 3] none ⟨[]⟩ = Except.ok (v, fs1, n) →
        v = Value.tup ((FS.glob fs1 "/cache" ((w1_helper.zarr_pattern (sha1_hexdigest "[3]")
              (toString w1_helper.cache_version)).format "*")).map
            (fun pr => Value.arr (DaskArr.from_zarr "/cache" pr)))) :=
  ⟨rfl, rfl, eligible_call_returns_reopened_zarr_tuple w1_helper w1_cfg [Arg.pyInt 3] none ⟨[]⟩
    (sha1_hexdigest "[3]") "/cache" rfl rfl⟩

theorem applySanitize_set_func (h : ZarrCacheHelper) (g : List Arg → Value) (args : List Arg) :
    applySanitize { h with func := g } args = applySanitize h args := rfl

theorem get_should_cache_set_func (h : ZarrCacheHelper) (g : List Arg → Value) (cfg : Config)
    (args : List Arg) (cd : Option String) :
    ZarrCacheHelper.get_should_cache_and_cache_dir { h with func := g } cfg args cd
      = h.get_should_cache_and_cache_dir cfg args cd := rfl

theorem zarr_pattern_set_func (h : ZarrCacheHelper) (g : List Arg → Value) (a v : String) :
    ZarrCacheHelper.zarr_pattern { h with func := g } a v = h.zarr_pattern a v := rfl

theorem cache_version_set_func (h : ZarrCacheHelper) (g : List Arg → Value) :
    ({ h with func := g } : ZarrCacheHelper).cache_version = h.cache_version := rfl

/-- C9: when caching is active the caller's result is always a Python
tuple whose length and element order come from the filesystem enumeration
of paths matching the fingerprint at read time, and on a hit the result is
identical for any two wrapped functions — what is on disk, not the wrapped
function's return value, governs the caller's result shape. -/
theorem result_shape_governed_by_disk_enumeration
    (h : ZarrCacheHelper) (g : List Arg → Value) (cfg : Config) (args : List Arg)
    (cdir : Option String) (fs : FS) (ah d : String)
    (hh : _hash_args (applySanitize h args) = Except.ok ah)
    (hsc : h.get_should_cache_and_cache_dir cfg (applySanitize h args) cdir = (true, some d)) :
    (∀ v fs1 n, h.call cfg args cdir fs = Except.ok (v, fs1, n) →
       ∃ l, v = Value.tup l
         ∧ l.length = (FS.glob fs1 d ((h.zarr_pattern ah (toString h.cache_version)).format "*")).length)
    ∧ (FS.glob fs d ((h.zarr_pattern ah (toString h.cache_version)).format "*") ≠ [] →
       h.call cfg args cdir fs = ZarrCacheHelper.call { h with func := g } cfg args cdir fs) := by
  constructor
  · intro v fs1 n hcall
    have hv := call_eligible_result_reopened h cfg args cdir fs ah d hh hsc v fs1 n hcall
    exact ⟨_, hv, by simp⟩
  · intro hne
    have hemp : (FS.glob fs d ((h.zarr_pattern ah (toString h.cache_version)).format "*")).isEmpty
        = false := by
      cases hglob : FS.glob fs d ((h.zarr_pattern ah (toString h.cache_version)).format "*") with
      | nil => exact absurd hglob hne
      | cons p ps => rfl
    simp only [ZarrCacheHelper.call, applySanitize_set_func, get_should_cache_set_func,
      zarr_pattern_set_func, cache_version_set_func, hh, hsc, hemp, Bool.not_true,
      Bool.false_or, Bool.false_eq_true, if_false]

theorem result_shape_governed_by_disk_enumeration_witness :
    _hash_args (applySanitize w9_helper [Arg.pyInt 3]) = Except.ok (sha1_hexdigest "[3]")
    ∧ w9_helper.get_should_cache_and_cache_dir w9_cfg (applySanitize w9_helper [Arg.pyInt 3]) none
        = (true, some "/cache")
    ∧ FS.glob w9_fs "/cache" ((w9_helper.zarr_pattern (sha1_hexdigest "[3]")
        (toString w9_helper.cache_version)).format "*") ≠ []
    ∧ w9_helper.call w9_cfg [Arg.pyInt 3] none w9_fs
      = ZarrCacheHelper.call { w9_helper with func := fun _ => Value.other 9 } w9_cfg
          [Arg.pyInt 3] none w9_fs := by
  have hne : FS.glob w9_fs "/cache" ((w9_helper.zarr_pattern (sha1_hexdigest "[3]")
      (toString w9_helper.cache_version)).format "*") ≠ [] := by decide
  exact ⟨rfl, rfl, hne,
    (result_shape_governed_by_disk_enumeration w9_helper (fun _ => Value.other 9) w9_cfg
      [Arg.pyInt 3] none w9_fs (sha1_hexdigest "[3]") "/cache" rfl rfl).2 hne⟩

theorem applySanitize_lonlats (args : List Arg) :
    applySanitize _get_valid_lonlats args = args := rfl

theorem lonlats_func_eq : _get_valid_lonlats.func = _get_valid_lonlats_func := rfl

/-- A successful `_hash_args` result is always a sha1 hex digest. -/
theorem hash_args_ok_shape (args : List Arg) (ah : String)
    (hh : _hash_args args = Except.ok ah) : ∃ s0, ah = sha1_hexdigest s0 := by
  unfold _hash_args at hh
  cases hj : jsonDumpsH (args.filterMap Arg.toHashable) with
  | error e =>
    rw [hj] at hh
    simp [Except.map] at hh
  | ok s0 =>
    rw [hj] at hh
    simp [Except.map] at hh
    exact ⟨s0, hh.symm⟩

/-- A file name produced by instantiating the `{}` hole of a zarr format
matches the wildcard instantiation of the same format. -/
theorem globMatch_format (fmt : ZarrFmt) (s : String)
    (hpre : '*' ∉ fmt.pre.data) (hpost : '*' ∉ fmt.post.data) :
    globMatch (fmt.format "*").data (fmt.format s).data = true := by
  have h1 : (fmt.format "*").data = fmt.pre.data ++ '*' :: fmt.post.data := by
    simp [ZarrFmt.format, string_data_append]
  have h2 : (fmt.format s).data = fmt.pre.data ++ (s.data ++ fmt.post.data) := by
    simp [ZarrFmt.format, string_data_append]
  rw [h1, h2]
  exact globMatch_wrap _ _ _ hpre hpost

/-- The write-then-read behaviour of the decorated `_get_valid_lonlats`,
for any eligible call: a miss on an empty cache root writes exactly the
two artifacts (indices 0 and 1, shared fingerprint) and returns their
reopened form; an identical second call returns the identical value
without invoking the wrapped function. -/
theorem lonlats_roundtrip_core (g : AreaDef) (c : Arg) (flags : List (String × Bool))
    (d ah : String)
    (hh : _hash_args (lonlats_call_args g c) = Except.ok ah)
    (hsc : _get_valid_lonlats.get_should_cache_and_cache_dir ⟨flags, some d⟩
             (lonlats_call_args g c) none = (true, some d)) :
    (let fmt := _get_valid_lonlats.zarr_pattern ah (toString _get_valid_lonlats.cache_version)
     let e0 : FSEntry := ⟨d, fmt.format "0", _nan_filter (g.get_lonlats c.toChunks).1⟩
     let e1 : FSEntry := ⟨d, fmt.format "1", _nan_filter (g.get_lonlats c.toChunks).2⟩
     let v1 := Value.tup [Value.arr ⟨DaskSource.zarr d e0.fname, e0.data⟩,
                          Value.arr ⟨DaskSource.zarr d e1.fname, e1.data⟩]
     _get_valid_lonlats.call ⟨flags, some d⟩ (lonlats_call_args g c) none ⟨[]⟩
       = Except.ok (v1, ⟨[e0, e1]⟩, 1)
     ∧ _get_valid_lonlats.call ⟨flags, some d⟩ (lonlats_call_args g c) none ⟨[e0, e1]⟩
       = Except.ok (v1, ⟨[e0, e1]⟩, 0)) := by
  intro fmt e0 e1 v1
  obtain ⟨s0, hs0⟩ := hash_args_ok_shape _ ah hh
  have hpre : '*' ∉ fmt.pre.data := by
    simp only [fmt, ZarrCacheHelper.zarr_pattern]
    decide
  have hpost : '*' ∉ fmt.post.data := by
    simp only [fmt, ZarrCacheHelper.zarr_pattern, hs0]
    intro hmem
    rw [string_data_append, string_data_append] at hmem
    rcases List.mem_append.mp hmem with h1 | h2
    · rcases List.mem_append.mp h1 with ha | hb
      · simp at ha
      · exact star_not_mem_sha1 s0 hb
    · simp at h2
  have hfunc : _get_valid_lonlats_func (lonlats_call_args g c)
      = Value.tup [Value.arr ⟨DaskSource.computed, _nan_filter (g.get_lonlats c.toChunks).1⟩,
                   Value.arr ⟨DaskSource.computed, _nan_filter (g.get_lonlats c.toChunks).2⟩] := rfl
  have hm0 : globMatch (fmt.format "*").data (fmt.format "0").data = true :=
    globMatch_format fmt "0" hpre hpost
  have hm1 : globMatch (fmt.format "*").data (fmt.format "1").data = true :=
    globMatch_format fmt "1" hpre hpost
  constructor
  · simp only [ZarrCacheHelper.call, applySanitize_lonlats, hh, hsc, lonlats_func_eq, hfunc,
      _cache_results, Value.iterate, delayedWrites, Except.map,
      show toString (0 : Nat) = "0" from rfl, show toString (1 : Nat) = "1" from rfl,
      FS.glob, List.filterMap, List.isEmpty_nil, Bool.not_true, Bool.false_or, if_true,
      Bool.true_and, List.nil_append]
    simp only [beq_self_eq_true, Bool.true_and, hm0, hm1, if_true, List.map_cons, List.map_nil,
      DaskArr.from_zarr]
  · have hm0b := hm0
    have hm1b := hm1
    simp only [fmt] at hm0b hm1b
    simp only [ZarrCacheHelper.call, applySanitize_lonlats, hh, hsc, lonlats_func_eq, hfunc,
      FS.glob, Bool.not_true, Bool.false_or]
    simp [e0, e1, v1, fmt, hm0b, hm1b, DaskArr.from_zarr]

/-- C2: with caching enabled and an initially empty cache root, the first
call of the two-output grid-extraction function for a geometry and chunk
spec creates exactly two artifact directories, output indices 0 and 1,
sharing one fingerprint, and a second call with identical arguments
returns the bit-identical value without invoking the wrapped extraction
function again (invocation count 0 instead of 1). -/
theorem lonlats_cache_write_then_read_roundtrip
    (g : AreaDef) (c : Arg) (flags : List (String × Bool)) (d : String)
    (hc : isChunkSpec c = true)
    (hflag : Config.getFlag ⟨flags, some d⟩ "cache_lonlats" = true) :
    ∃ ah, _hash_args (lonlats_call_args g c) = Except.ok ah
      ∧ (let fmt := _get_valid_lonlats.zarr_pattern ah (toString _get_valid_lonlats.cache_version)
         let e0 : FSEntry := ⟨d, fmt.format "0", _nan_filter (g.get_lonlats c.toChunks).1⟩
         let e1 : FSEntry := ⟨d, fmt.format "1", _nan_filter (g.get_lonlats c.toChunks).2⟩
         let v1 := Value.tup [Value.arr ⟨DaskSource.zarr d e0.fname, e0.data⟩,
                              Value.arr ⟨DaskSource.zarr d e1.fname, e1.data⟩]
         _get_valid_lonlats.call ⟨flags, some d⟩ (lonlats_call_args g c) none ⟨[]⟩
           = Except.ok (v1, ⟨[e0, e1]⟩, 1)
         ∧ _get_valid_lonlats.call ⟨flags, some d⟩ (lonlats_call_args g c) none ⟨[e0, e1]⟩
           = Except.ok (v1, ⟨[e0, e1]⟩, 0)) := by
  have hh : ∃ ah, _hash_args (lonlats_call_args g c) = Except.ok ah := by
    cases c <;> first
      | exact ⟨_, rfl⟩
      | simp [isChunkSpec] at hc
  obtain ⟨ah, hha⟩ := hh
  have hsc : _get_valid_lonlats.get_should_cache_and_cache_dir ⟨flags, some d⟩
      (lonlats_call_args g c) none = (true, some d) := by
    cases c <;> simp_all [ZarrCacheHelper.get_should_cache_and_cache_dir, Config.getFlag,
      lonlats_call_args, Arg.tag, _get_valid_lonlats, cache_to_zarr_if,
      default_uncacheable_arg_types, isChunkSpec]
  exact ⟨ah, hha, lonlats_roundtrip_core g c flags d ah hha hsc⟩

theorem lonlats_cache_write_then_read_roundtrip_witness :
    isChunkSpec (Arg.pyStr "auto") = true
    ∧ Config.getFlag ⟨[("cache_lonlats", true)], some "/c"⟩ "cache_lonlats" = true
    ∧ (∃ ah, _hash_args (lonlats_call_args ⟨42, fun _ => ([], [])⟩ (Arg.pyStr "auto"))
         = Except.ok ah
      ∧ (let fmt := _get_valid_lonlats.zarr_pattern ah (toString _get_valid_lonlats.cache_version)
         let e0 : FSEntry := ⟨"/c", fmt.format "0",
           _nan_filter ((⟨42, fun _ => ([], [])⟩ : AreaDef).get_lonlats (Arg.pyStr "auto").toChunks).1⟩
         let e1 : FSEntry := ⟨"/c", fmt.format "1",
           _nan_filter ((⟨42, fun _ => ([], [])⟩ : AreaDef).get_lonlats (Arg.pyStr "auto").toChunks).2⟩
         let v1 := Value.tup [Value.arr ⟨DaskSource.zarr "/c" e0.fname, e0.data⟩,
                              Value.arr ⟨DaskSource.zarr "/c" e1.fname, e1.data⟩]
         _get_valid_lonlats.call ⟨[("cache_lonlats", true)], some "/c"⟩
             (lonlats_call_args ⟨42, fun _ => ([], [])⟩ (Arg.pyStr "auto")) none ⟨[]⟩
           = Except.ok (v1, ⟨[e0, e1]⟩, 1)
         ∧ _get_valid_lonlats.call ⟨[("cache_lonlats", true)], some "/c"⟩
             (lonlats_call_args ⟨42, fun _ => ([], [])⟩ (Arg.pyStr "auto")) none ⟨[e0, e1]⟩
           = Except.ok (v1, ⟨[e0, e1]⟩, 0))) :=
  ⟨rfl, rfl, lonlats_cache_write_then_read_roundtrip ⟨42, fun _ => ([], [])⟩ (Arg.pyStr "auto")
    [("cache_lonlats", true)] "/c" rfl rfl⟩
